import Mathlib

/-!
Shallow embedding of the 5D-Chess-League bot's rating-and-reconciliation
engine (`src/bot.py`) and proofs about it.

Modelling conventions.

* The SQLite store is modelled as an explicit `State` record holding the
  rows of the four tables (`players`, `pending_reps`, `seasons`,
  `pairings`) in insertion (rowid) order, together with the next
  AUTOINCREMENT ids.
* Python floats are modelled as real numbers; `math.pow(10, x)` is real
  exponentiation (`Real.rpow`).  SQLite timestamps are modelled as `Nat`
  seconds; `datetime.now() - timedelta(minutes=30)` becomes `now - 1800`.
* The `pending_reps` CREATE TABLE in `init_db` declares the columns
  `(id, pairing_id, reporter_id, result, game_number, timestamp)`, while
  the freeform code path reads and writes the legacy columns
  `(reporter_id, opponent_id, reporter_result, timestamp)`.  We model a
  row with the union of the columns the code addresses: `opponent_id`
  is populated only by the freeform insert, `pairing_id`/`game_number`
  only by the season insert, and the claimed result is a single `result`
  field (no row is ever written by both paths).
* Likewise the `pairings` CREATE TABLE declares no `game_number` column,
  yet every season-mode query filters on `pairings.game_number`.  We model
  it as a present-but-never-populated column (`Option Nat`, `none` on
  every insert performed by `generate_pairings`); this matches a database
  migrated from a legacy two-rows-per-pairing schema.  On a freshly
  created schema those queries instead fail with an SQLite
  "no such column" error; either way the behaviour proved below (season
  reports never match a generator-created pairing) is what the code does.
* Discord I/O (`ctx.send`, role synchronisation) carries no store state
  and is dropped; each command returns its final `State` together with an
  `Outcome` that identifies which reply/branch was taken.
-/

namespace EloBot

/-- K_FACTOR constant from bot.py line 42. -/
def K_FACTOR : ℝ := 25

/-- INITIAL_ELO constant from bot.py line 43. -/
def INITIAL_ELO : ℝ := 1380

/-- get_expected_score from bot.py lines 189-190:
`1 / (1 + math.pow(10, (b - a) / 400))`. -/
noncomputable def get_expected_score (a b : ℝ) : ℝ :=
  1 / (1 + (10 : ℝ) ^ ((b - a) / 400))

/-- update_elo from bot.py lines 193-204. -/
noncomputable def update_elo (winner_elo loser_elo : ℝ) (draw : Bool) : ℝ × ℝ :=
  if draw then
    let expected_winner := get_expected_score winner_elo loser_elo
    let expected_loser := get_expected_score loser_elo winner_elo
    (winner_elo + K_FACTOR * (0.5 - expected_winner),
     loser_elo + K_FACTOR * (0.5 - expected_loser))
  else
    let expected := get_expected_score winner_elo loser_elo
    (winner_elo + K_FACTOR * (1 - expected),
     loser_elo + K_FACTOR * (0 - (1 - expected)))

/-- Row of the `players` table (id, elo, wins, losses, draws, signed_up). -/
structure Player where
  id : Nat
  elo : ℝ
  wins : Int
  losses : Int
  draws : Int
  signed_up : Bool

/-- Row of the `pending_reps` table; union of the columns addressed by the
freeform path (reporter_id, opponent_id, result, timestamp) and the season
path (pairing_id, reporter_id, result, game_number, timestamp). -/
structure PendingRep where
  id : Nat
  pairing_id : Option Nat
  reporter_id : Nat
  opponent_id : Option Nat
  result : String
  game_number : Option Nat
  timestamp : Nat
deriving DecidableEq

/-- Row of the `seasons` table. -/
structure Season where
  season_number : Nat
  active : Bool
deriving DecidableEq

/-- Row of the `pairings` table.  `game_number` is the never-populated
legacy column discussed in the header comment. -/
structure Pairing where
  id : Nat
  player1_id : Nat
  player2_id : Nat
  result1 : Option ℝ
  result2 : Option ℝ
  season_number : Nat
  group_name : String
  game_number : Option Nat

/-- One row of the `elo_roles.csv` tier table. -/
structure RoleRange where
  name : String
  minElo : Int
  maxElo : Int
deriving DecidableEq

/-- The whole persistent store. -/
structure State where
  players : List Player
  pending_reps : List PendingRep
  seasons : List Season
  pairings : List Pairing
  next_rep_id : Nat
  next_pairing_id : Nat

/-- Which reply/branch a command ended in. -/
inductive Outcome where
  | invalidResult
  | selfReport
  | notRegistered
  | alreadyRegistered
  | registered
  | invalidGameNumber
  | noPairing
  | resultsMismatch
  | seasonSettled
  | seasonConfirmed
  | alreadyReported
  | seasonReported
  | freeformConfirmed
  | freeformConflict
  | freeformReported
  | noPendingMatch
  | cancelMismatch
  | cancelled
  | seasonAlreadyActive
  | seasonStarted
  | internalError
deriving DecidableEq

/-- Python `str.lower` on the ASCII command arguments.  (Same function as
`String.toLower`, but written through the character list so that it
evaluates by kernel reduction.) -/
def pyLower (s : String) : String := ⟨s.data.map Char.toLower⟩

/-- get_player_data from bot.py lines 208-214:
`SELECT * FROM players WHERE id=?` (fetchone). -/
def get_player_data (s : State) (player_id : Nat) : Option Player :=
  s.players.find? (fun p => p.id == player_id)

/-- update_player_stats from bot.py lines 446-457: sets elo and increments
the win/loss/draw counters for one player. -/
noncomputable def update_player_stats (s : State) (player_id : Nat) (elo : ℝ)
    (wins losses draws : Int) : State :=
  { s with players := s.players.map (fun p =>
      if p.id == player_id then
        { p with elo := elo, wins := p.wins + wins, losses := p.losses + losses,
                 draws := p.draws + draws }
      else p) }

/-- add_pending_rep from bot.py lines 420-427: the freeform insert
`INSERT INTO pending_reps (reporter_id, opponent_id, reporter_result)`
with the timestamp defaulting to the current time. -/
def add_pending_rep (s : State) (now : Nat) (reporter_id opponent_id : Nat)
    (reporter_result : String) : State :=
  { s with
    pending_reps := s.pending_reps ++
      [⟨s.next_rep_id, none, reporter_id, some opponent_id, reporter_result, none, now⟩],
    next_rep_id := s.next_rep_id + 1 }

/-- The WHERE clause of get_pending_rep (bot.py lines 435-441):
`reporter_id = ? AND opponent_id = ? AND timestamp >= cutoff`. -/
def matchesFree (reporter_id opponent_id cutoff : Nat) (x : PendingRep) : Bool :=
  x.reporter_id == reporter_id && x.opponent_id == some opponent_id &&
    decide (cutoff ≤ x.timestamp)

/-- `ORDER BY timestamp DESC LIMIT 1`: the row with the greatest timestamp
(ties resolved to the most recently inserted row). -/
def latestRep : List PendingRep → Option PendingRep
  | [] => none
  | r :: rs =>
    match latestRep rs with
    | none => some r
    | some b => if b.timestamp < r.timestamp then some r else some b

/-- get_pending_rep from bot.py lines 430-444: the freeform lookup with the
30-minute TTL cutoff. -/
def get_pending_rep (s : State) (now reporter_id opponent_id : Nat) :
    Option PendingRep :=
  latestRep (s.pending_reps.filter (matchesFree reporter_id opponent_id (now - 1800)))

/-- delete_pending_rep from bot.py lines 459-464:
`DELETE FROM pending_reps WHERE id=?`. -/
def delete_pending_rep (s : State) (rep_id : Nat) : State :=
  { s with pending_reps := s.pending_reps.filter (fun x => !(x.id == rep_id)) }

/-- The season-mode pending lookup of bot.py lines 576-581:
`SELECT reporter_id, result FROM pending_reps WHERE pairing_id = ? AND
game_number = ?` — note the absence of any timestamp condition. -/
def get_season_pending_rep (s : State) (pairing_id g : Nat) : Option PendingRep :=
  s.pending_reps.find? (fun x =>
    x.pairing_id == some pairing_id && x.game_number == some g)

/-- `SELECT ... FROM seasons ORDER BY season_number DESC LIMIT 1`: the row
with the greatest season number (the primary key makes it unique). -/
def maxSeasonRow : List Season → Option Season
  | [] => none
  | r :: rs =>
    match maxSeasonRow rs with
    | none => some r
    | some b => if b.season_number < r.season_number then some r else some b

/-- The `season_active` read of bot.py line 545 (`init_db` guarantees at
least one season row, hence the `getD false` default is never taken). -/
def latest_season_active (s : State) : Bool :=
  ((maxSeasonRow s.seasons).map (fun r => r.active)).getD false

/-- The subquery `SELECT season_number FROM seasons WHERE active = 1`
(first row, if any). -/
def activeSeasonNumber (s : State) : Option Nat :=
  (s.seasons.find? (fun r => r.active)).map (fun r => r.season_number)

/-- `SELECT active FROM seasons WHERE season_number=?` from bot.py
line 1008. -/
def seasonActiveFlagOf (s : State) (n : Nat) : Bool :=
  ((s.seasons.find? (fun r => r.season_number == n)).map (fun r => r.active)).getD false

/-- The complement map `{'w': 'l', 'l': 'w', 'd': 'd'}` of bot.py line 586
(stored results are always one of the three keys). -/
def complementOf (r : String) : String :=
  if r == "w" then "l" else if r == "l" then "w" else "d"

/-- The pairing lookup condition of bot.py lines 554-560. -/
def seasonPairingMatch (s : State) (author opponent g : Nat) (p : Pairing) : Bool :=
  ((p.player1_id == author && p.player2_id == opponent) ||
   (p.player1_id == opponent && p.player2_id == author)) &&
  activeSeasonNumber s == some p.season_number &&
  p.game_number == some g

/-- The both-games condition row set of bot.py lines 599-604
(`SELECT result1, result2 FROM pairings WHERE (player1_id = ? AND
player2_id = ?) AND season_number = (active) ORDER BY game_number`). -/
def bothGamesRows (s : State) (p1_id p2_id : Nat) : List Pairing :=
  s.pairings.filter (fun p =>
    p.player1_id == p1_id && p.player2_id == p2_id &&
    activeSeasonNumber s == some p.season_number)

/-- Ascending comparison on the `game_number` column (SQL `ORDER BY`
puts NULLs first). -/
def gameNumberLe (p q : Pairing) : Bool :=
  match p.game_number, q.game_number with
  | none, _ => true
  | some _, none => false
  | some a, some b => decide (a ≤ b)

/-- Insertion step of an insertion sort driven by a Bool comparison. -/
def insertBy (le : α → α → Bool) (a : α) : List α → List α
  | [] => [a]
  | b :: bs => if le a b then a :: b :: bs else b :: insertBy le a bs

/-- Insertion sort driven by a Bool comparison (models SQL `ORDER BY`). -/
def sortBy (le : α → α → Bool) : List α → List α
  | [] => []
  | a :: as => insertBy le a (sortBy le as)

/-- report_match from bot.py lines 517-717, as a pure state transformer.
`now` is the wall-clock second at which the command runs. -/
noncomputable def report_match (s : State) (now author : Nat) (result : String)
    (opponent : Nat) (game_number : Option Nat) : State × Outcome :=
  let result := pyLower result
  if !(result == "w" || result == "l" || result == "d") then (s, .invalidResult)
  else if author == opponent then (s, .selfReport)
  else
    match get_player_data s author, get_player_data s opponent with
    | some reporter_data, some opponent_data =>
      if latest_season_active s && game_number.isSome then
        -- ====== Season Match Handling ======
        match game_number with
        | none => (s, .internalError)  -- unreachable: isSome was checked
        | some g =>
          if !(g == 1 || g == 2) then (s, .invalidGameNumber)
          else
            match s.pairings.find? (seasonPairingMatch s author opponent g) with
            | none => (s, .noPairing)
            | some pairing =>
              -- existing_result1/existing_result2 are fetched by the source
              -- (line 567) but never used afterwards.
              let pairing_id := pairing.id
              let p1_id := pairing.player1_id
              let p2_id := pairing.player2_id
              let is_player1 := author == p1_id
              let result_value : ℝ :=
                if result == "d" then 0.5
                else if (result == "w" && is_player1) ||
                        (result == "l" && !is_player1) then 1.0
                else 0.0
              match get_season_pending_rep s pairing_id g with
              | some existing_rep =>
                if existing_rep.reporter_id == opponent then
                  if result != complementOf existing_rep.result then
                    (s, .resultsMismatch)
                  else
                    -- UPDATE pairings SET result{g}=? WHERE id=? AND game_number=?
                    let s1 := { s with pairings := s.pairings.map (fun p =>
                      if p.id == pairing_id && p.game_number == some g then
                        if g == 1 then { p with result1 := some result_value }
                        else { p with result2 := some result_value }
                      else p) }
                    let game_results := sortBy gameNumberLe (bothGamesRows s1 p1_id p2_id)
                    if game_results.length == 2 &&
                       game_results.all (fun p => p.result1.isSome && p.result2.isSome) then
                      match get_player_data s1 p1_id, get_player_data s1 p2_id with
                      | some p1d, some p2d =>
                        -- game1, game2 = game_results[0][0], game_results[1][0]
                        let game1 := (((game_results.get? 0).bind (fun p => p.result1)).getD 0)
                        let game2 := (((game_results.get? 1).bind (fun p => p.result1)).getD 0)
                        let p1_elo := p1d.elo
                        let p2_elo := p2d.elo
                        let gp1 := if game1 = (0.5 : ℝ) then update_elo p1_elo p2_elo true
                                   else update_elo p1_elo p2_elo (decide (game1 = (1.0 : ℝ)))
                        let gp2 := if game2 = (0.5 : ℝ) then update_elo p1_elo p2_elo true
                                   else update_elo p1_elo p2_elo (decide (game2 = (1.0 : ℝ)))
                        let final_p1 := (gp1.1 + gp2.1) / 2
                        let final_p2 := (gp1.2 + gp2.2) / 2
                        let p1_wins : Int :=
                          (([game1, game2].filter (fun r =>
                            decide ((r = (1.0 : ℝ) ∧ p1_id = author) ∨
                                    (r = (0.0 : ℝ) ∧ p2_id = author)))).length : Int)
                        let p1_draws : Int :=
                          (([game1, game2].filter (fun r => decide (r = (0.5 : ℝ)))).length : Int)
                        let p1_losses : Int := 2 - p1_wins - p1_draws
                        let p2_wins : Int := 2 - p1_wins - p1_draws
                        let p2_losses : Int := p1_wins
                        let p2_draws : Int := p1_draws
                        let s2 := update_player_stats s1 p1_id final_p1 p1_wins p1_losses p1_draws
                        let s3 := update_player_stats s2 p2_id final_p2 p2_wins p2_losses p2_draws
                        -- DELETE FROM pending_reps WHERE pairing_id=?
                        let sweep := fun (x : PendingRep) => !(x.pairing_id == some pairing_id)
                        let s4 := { s3 with pending_reps := s3.pending_reps.filter sweep }
                        (s4, .seasonSettled)
                      | _, _ => (s1, .internalError)
                    else
                      let sweep := fun (x : PendingRep) => !(x.pairing_id == some pairing_id)
                      let s2 := { s1 with pending_reps := s1.pending_reps.filter sweep }
                      (s2, .seasonConfirmed)
                else (s, .alreadyReported)
              | none =>
                -- INSERT INTO pending_reps (pairing_id, reporter_id, result, game_number)
                ({ s with
                   pending_reps := s.pending_reps ++
                     [⟨s.next_rep_id, some pairing_id, author, none, result, some g, now⟩],
                   next_rep_id := s.next_rep_id + 1 }, .seasonReported)
      else
        -- ====== Regular Match Handling ======
        match get_pending_rep s now opponent author with
        | some pending_rep =>
          let pending_result := pending_rep.result
          if (result == "w" && pending_result == "l") ||
             (result == "l" && pending_result == "w") ||
             (result == "d" && pending_result == "d") then
            let reporter_elo := reporter_data.elo
            let opponent_elo := opponent_data.elo
            if result == "w" then
              let r := update_elo reporter_elo opponent_elo false
              let s1 := update_player_stats s author r.1 1 0 0
              let s2 := update_player_stats s1 opponent r.2 0 1 0
              (delete_pending_rep s2 pending_rep.id, .freeformConfirmed)
            else if result == "l" then
              let r := update_elo opponent_elo reporter_elo false
              let s1 := update_player_stats s author r.2 0 1 0
              let s2 := update_player_stats s1 opponent r.1 1 0 0
              (delete_pending_rep s2 pending_rep.id, .freeformConfirmed)
            else
              let r := update_elo reporter_elo opponent_elo true
              let s1 := update_player_stats s author r.1 0 0 1
              let s2 := update_player_stats s1 opponent r.2 0 0 1
              (delete_pending_rep s2 pending_rep.id, .freeformConfirmed)
          else (s, .freeformConflict)
        | none =>
          (add_pending_rep s now author opponent result, .freeformReported)
    | _, _ => (s, .notRegistered)

/-- cancel_pending_match from bot.py lines 719-747. -/
def cancel_pending_match (s : State) (now author : Nat) (result : String)
    (opponent : Nat) : State × Outcome :=
  let result := pyLower result
  if !(result == "w" || result == "l" || result == "d") then (s, .invalidResult)
  else if author == opponent then (s, .selfReport)
  else
    match get_pending_rep s now author opponent with
    | none => (s, .noPendingMatch)
    | some pending_rep =>
      if pyLower pending_rep.result != result then (s, .cancelMismatch)
      else (delete_pending_rep s pending_rep.id, .cancelled)

/-- register_player from bot.py lines 496-514. -/
noncomputable def register_player (s : State) (player_id : Nat) : State × Outcome :=
  match get_player_data s player_id with
  | some _ => (s, .alreadyRegistered)
  | none =>
    ({ s with players := s.players ++ [⟨player_id, INITIAL_ELO, 0, 0, 0, false⟩] },
     .registered)

/-- The first tier whose inclusive range contains the rating (bot.py
lines 256-262; `role_ranges` is scanned in sorted order). -/
noncomputable def findRole (ranges : List RoleRange) (elo : ℝ) : Option RoleRange :=
  ranges.find? (fun rr => decide ((rr.minElo : ℝ) ≤ elo ∧ elo ≤ (rr.maxElo : ℝ)))

/-- Appending a player id to the named group, preserving dict insertion
order (bot.py lines 258-261). -/
def appendToGroup : List (String × List Nat) → String → Nat → List (String × List Nat)
  | [], name, pid => [(name, [pid])]
  | (n, ids) :: rest, name, pid =>
    if n == name then (n, ids ++ [pid]) :: rest
    else (n, ids) :: appendToGroup rest name pid

/-- The `groups` dict of bot.py lines 253-262: each signed-up player is
assigned to the first matching tier; non-matching players are dropped. -/
noncomputable def assignGroups (ranges : List RoleRange) (players : List (Nat × ℝ)) :
    List (String × List Nat) :=
  players.foldl (fun gs pe =>
    match findRole ranges pe.2 with
    | some rr => appendToGroup gs rr.name pe.1
    | none => gs) []

/-- `subgroup_size = max(4, len(player_ids) // ((len(player_ids) // 7) + 1))`
from bot.py line 277. -/
def subgroup_size (n : Nat) : Nat := max 4 (n / (n / 7 + 1))

/-- Structural worker for `chunksOf`: the fuel only bounds the number of
slices and is irrelevant whenever `fuel ≥ l.length` and `s ≥ 1`, which is
how it is always called. -/
def chunksOfFuel (s : Nat) : Nat → List α → List (List α)
  | _, [] => []
  | 0, _ :: _ => []
  | fuel + 1, a :: l => ((a :: l).take s) :: chunksOfFuel s fuel ((a :: l).drop s)

/-- The slicing `[ids[i:i + s] for i in range(0, len(ids), s)]` of bot.py
line 278 (the chunk size `s` is always at least 4 at the call site, so
`l.length` steps always suffice). -/
def chunksOf (s : Nat) (l : List α) : List (List α) :=
  chunksOfFuel s l.length l

/-- The subgroup split of bot.py lines 272-280: groups larger than 7 are
shuffled and cut into chunks of `subgroup_size`, smaller groups stay
whole.  The random shuffle is passed in as an explicit permutation
function. -/
def subgroupsSplit (shuffle : List Nat → List Nat) (ids : List Nat) :
    List (List Nat) :=
  if ids.length > 7 then
    chunksOf (subgroup_size (shuffle ids).length) (shuffle ids)
  else [ids]

/-- `itertools.combinations(subgroup, 2)` (bot.py line 288): all ordered
index pairs i < j. -/
def pairsOf : List α → List (α × α)
  | [] => []
  | x :: xs => xs.map (fun y => (x, y)) ++ pairsOf xs

/-- One `INSERT INTO pairings (player1_id, player2_id, season_number,
group_name)` (bot.py lines 293-296); every defaulted column, including
the legacy `game_number`, is NULL. -/
def insertPairing (s : State) (p1 p2 season : Nat) (gname : String) : State :=
  { s with
    pairings := s.pairings ++ [⟨s.next_pairing_id, p1, p2, none, none, season, gname, none⟩],
    next_pairing_id := s.next_pairing_id + 1 }

/-- Inserting the round-robin pairings of one subgroup. -/
def insertSubgroupPairings (s : State) (season : Nat) (gname : String)
    (sub : List Nat) : State :=
  (pairsOf sub).foldl (fun st pr => insertPairing st pr.1 pr.2 season gname) s

/-- Inserting the pairings of one tier group, naming subgroups with a
`-i` suffix when the tier was split (bot.py lines 283-298). -/
def insertGroupPairings (shuffle : List Nat → List Nat) (season : Nat)
    (s : State) (grp : String × List Nat) : State :=
  let subs := subgroupsSplit shuffle grp.2
  subs.enum.foldl (fun st isub =>
    insertSubgroupPairings st season
      (if subs.length == 1 then grp.1 else grp.1 ++ "-" ++ toString (isub.1 + 1))
      isub.2) s

/-- generate_pairings from bot.py lines 217-308, minus the Discord I/O.
Returns the new state and the boolean success value the source returns.
The two failure paths (no signed-up players, no group matched) return
before any insert. -/
noncomputable def generate_pairings (shuffle : List Nat → List Nat) (s : State)
    (roles : List RoleRange) (season_number : Nat) : State × Bool :=
  let players := (s.players.filter (fun p => p.signed_up)).map (fun p => (p.id, p.elo))
  if players.isEmpty then (s, false)
  else
    let role_ranges := sortBy (fun a b : RoleRange => decide (b.minElo ≤ a.minElo)) roles
    let groups := assignGroups role_ranges players
    if groups.isEmpty then (s, false)
    else
      (groups.foldl (insertGroupPairings shuffle season_number) s, true)

/-- start_season from bot.py lines 990-1029.  Note that the source binds
the success value of `generate_pairings` to nothing: the season is marked
active regardless of whether pairing generation succeeded. -/
noncomputable def start_season (shuffle : List Nat → List Nat) (s : State)
    (roles : List RoleRange) : State × Outcome :=
  match maxSeasonRow s.seasons with
  | none => (s, .internalError)  -- init_db guarantees a season row
  | some row =>
    let current := row.season_number
    if seasonActiveFlagOf s current then (s, .seasonAlreadyActive)
    else
      -- update_player_roles only reads the store and talks to Discord.
      let s1 := (generate_pairings shuffle s roles current).1
      ({ s1 with seasons := s1.seasons.map (fun t =>
          if t.season_number == current then { t with active := true } else t) },
       .seasonStarted)

/-- Python `str.isdigit` restricted to ASCII, as used on leaderboard
arguments (bot.py line 795). -/
def isDigits (s : String) : Bool := !s.isEmpty && s.all (fun c => c.isDigit)

/-- `min(max(1, int(arg)), 25)` from bot.py line 796. -/
def clampLimit (n : Nat) : Nat := min (max 1 n) 25

/-- One step of the leaderboard argument loop (bot.py lines 794-801):
digit arguments update the limit, all other words accumulate into the
role name. -/
def lbStep (acc : Nat × Option String) (arg : String) : Nat × Option String :=
  if isDigits arg then (clampLimit ((arg.toNat?).getD 0), acc.2)
  else
    match acc.2 with
    | none => (acc.1, some arg)
    | some r => (acc.1, some (r ++ " " ++ arg))

/-- The argument parse of show_leaderboard (bot.py lines 789-801),
starting from the defaults `limit = 10`, `role_name = None`. -/
def parse_leaderboard_args (args : List String) : Nat × Option String :=
  args.foldl lbStep (10, none)

/-- Descending-elo comparison (SQL `ORDER BY elo DESC`). -/
noncomputable def eloDesc (p q : Player) : Bool := decide (q.elo ≤ p.elo)

/-- The top-players query of show_leaderboard (bot.py lines 855, 864, 868):
`SELECT ... FROM players [WHERE id IN (...)] ORDER BY elo DESC LIMIT ?`. -/
noncomputable def topPlayersQuery (players : List Player)
    (member_ids : Option (List Nat)) (lim : Nat) : List Player :=
  (sortBy eloDesc
    (match member_ids with
     | none => players
     | some ids => players.filter (fun p => ids.contains p.id))).take lim

/-! ## Helper lemmas -/

/-- The two mutual expected scores always add up to 1. -/
theorem expected_score_sum (a b : ℝ) :
    get_expected_score a b + get_expected_score b a = 1 := by
  unfold get_expected_score
  have hx : (a - b) / 400 = -((b - a) / 400) := by ring
  rw [hx, Real.rpow_neg (by norm_num : (0:ℝ) ≤ 10)]
  have ht : (0:ℝ) < (10 : ℝ) ^ ((b - a) / 400) :=
    Real.rpow_pos_of_pos (by norm_num) _
  have h1 : (1 : ℝ) + (10 : ℝ) ^ ((b - a) / 400) ≠ 0 := by positivity
  have h2 : (1 : ℝ) + ((10 : ℝ) ^ ((b - a) / 400))⁻¹ ≠ 0 := by positivity
  field_simp
  ring

/-- A fresh store as `init_db` leaves it: no players, no reports, no
pairings, season 1 inactive. -/
def freshState : State := ⟨[], [], [⟨1, false⟩], [], 1, 1⟩

/-- `latestRep` only returns `none` on the empty list. -/
theorem latestRep_eq_none {l : List PendingRep} (h : latestRep l = none) :
    l = [] := by
  cases l with
  | nil => rfl
  | cons a as =>
    simp only [latestRep] at h
    cases hb : latestRep as with
    | none => rw [hb] at h; simp at h
    | some b =>
      rw [hb] at h
      by_cases hc : b.timestamp < a.timestamp <;> simp [hc] at h

/-- A report returned by `latestRep` is a member of the list. -/
theorem latestRep_mem : ∀ {l : List PendingRep} {r : PendingRep},
    latestRep l = some r → r ∈ l := by
  intro l
  induction l with
  | nil => intro r h; simp [latestRep] at h
  | cons a as ih =>
    intro r h
    simp only [latestRep] at h
    cases hb : latestRep as with
    | none =>
      rw [hb] at h
      simp at h
      subst h
      exact List.mem_cons_self a as
    | some b =>
      rw [hb] at h
      by_cases hc : b.timestamp < a.timestamp
      · simp [hc] at h
        subst h
        exact List.mem_cons_self a as
      · simp [hc] at h
        subst h
        exact List.mem_cons_of_mem a (ih hb)

/-- A report returned by `latestRep` carries the maximal timestamp. -/
theorem latestRep_le : ∀ {l : List PendingRep} {r : PendingRep},
    latestRep l = some r → ∀ x ∈ l, x.timestamp ≤ r.timestamp := by
  intro l
  induction l with
  | nil => intro r h; simp [latestRep] at h
  | cons a as ih =>
    intro r h x hx
    simp only [latestRep] at h
    cases hb : latestRep as with
    | none =>
      rw [hb] at h
      simp at h
      subst h
      have hnil : as = [] := latestRep_eq_none hb
      subst hnil
      rcases List.mem_singleton.mp hx with rfl
      exact Nat.le_refl _
    | some b =>
      rw [hb] at h
      by_cases hc : b.timestamp < a.timestamp
      · simp [hc] at h
        subst h
        rcases List.mem_cons.mp hx with rfl | hx2
        · exact Nat.le_refl _
        · exact Nat.le_trans (ih hb x hx2) (Nat.le_of_lt hc)
      · simp [hc] at h
        subst h
        rcases List.mem_cons.mp hx with rfl | hx2
        · exact Nat.le_of_not_lt hc
        · exact ih hb x hx2

/-- Unpacking the freeform WHERE clause. -/
theorem matchesFree_spec {r o c : Nat} {x : PendingRep}
    (h : matchesFree r o c x = true) :
    x.reporter_id = r ∧ x.opponent_id = some o ∧ c ≤ x.timestamp := by
  simp only [matchesFree, Bool.and_eq_true, beq_iff_eq, decide_eq_true_eq] at h
  exact ⟨h.1.1, h.1.2, h.2⟩

/-- What `get_pending_rep` guarantees about a returned report: it is a
stored, live, matching report with the maximal timestamp among all live
matching reports. -/
theorem get_pending_rep_spec (s : State) (now r o : Nat) (rep : PendingRep)
    (h : get_pending_rep s now r o = some rep) :
    rep ∈ s.pending_reps ∧ matchesFree r o (now - 1800) rep = true ∧
    ∀ x ∈ s.pending_reps, matchesFree r o (now - 1800) x = true →
      x.timestamp ≤ rep.timestamp := by
  unfold get_pending_rep at h
  refine ⟨List.mem_of_mem_filter (latestRep_mem h),
          List.of_mem_filter (latestRep_mem h), ?_⟩
  intro x hx hm
  exact latestRep_le h x (List.mem_filter.mpr ⟨hx, hm⟩)

/-- `find?` succeeds when some member satisfies the predicate. -/
theorem find?_isSome_of_mem {p : PendingRep → Bool} {l : List PendingRep}
    {x : PendingRep} (hx : x ∈ l) (hp : p x = true) :
    (l.find? p).isSome = true := by
  induction l with
  | nil => cases hx
  | cons a as ih =>
    cases hpa : p a with
    | true => simp [List.find?_cons_of_pos _ hpa]
    | false =>
      rcases List.mem_cons.mp hx with rfl | hx2
      · rw [hpa] at hp; cases hp
      · rw [List.find?_cons_of_neg _ (by simp [hpa])]
        exact ih hx2

/-- Distinct stored ids make distinct rows (pending_reps.id is the
AUTOINCREMENT primary key). -/
theorem pending_id_inj {l : List PendingRep}
    (h : (l.map (fun x => x.id)).Nodup) :
    ∀ x ∈ l, ∀ y ∈ l, x.id = y.id → x = y := by
  intro x hx y hy hxy
  exact List.inj_on_of_nodup_map h hx hy hxy

/-- Everything in `insertBy le a l` is `a` or comes from `l`. -/
theorem mem_insertBy (le : α → α → Bool) (a : α) (l : List α) (x : α) :
    x ∈ insertBy le a l ↔ x = a ∨ x ∈ l := by
  induction l with
  | nil => simp [insertBy]
  | cons b bs ih =>
    simp only [insertBy]
    by_cases h : le a b
    · simp [h]
    · rw [if_neg h]
      simp only [List.mem_cons, ih]
      tauto

/-- Inserting into a sorted list keeps it sorted (for a total transitive
Bool comparison). -/
theorem pairwise_insertBy (le : α → α → Bool)
    (hto : ∀ x y, le x y = true ∨ le y x = true)
    (htr : ∀ x y z, le x y = true → le y z = true → le x z = true)
    (a : α) : ∀ (l : List α), l.Pairwise (fun x y => le x y = true) →
    (insertBy le a l).Pairwise (fun x y => le x y = true) := by
  intro l
  induction l with
  | nil => intro h; simp [insertBy]
  | cons b bs ih =>
    intro h
    rcases List.pairwise_cons.mp h with ⟨hb, hbs⟩
    simp only [insertBy]
    by_cases hc : le a b
    · simp only [hc, if_true]
      refine List.pairwise_cons.mpr ⟨?_, h⟩
      intro y hy
      rcases List.mem_cons.mp hy with h1 | hy2
      · rw [h1]; exact hc
      · exact htr a b y hc (hb y hy2)
    · simp only [hc, if_false]
      refine List.pairwise_cons.mpr ⟨?_, ih hbs⟩
      intro y hy
      rcases (mem_insertBy le a bs y).mp hy with h1 | hy2
      · rw [h1]; exact (hto a b).resolve_left hc
      · exact hb y hy2

/-- Insertion sort sorts (for a total transitive Bool comparison). -/
theorem pairwise_sortBy (le : α → α → Bool)
    (hto : ∀ x y, le x y = true ∨ le y x = true)
    (htr : ∀ x y z, le x y = true → le y z = true → le x z = true)
    (l : List α) : (sortBy le l).Pairwise (fun x y => le x y = true) := by
  induction l with
  | nil => simp [sortBy]
  | cons a as ih => exact pairwise_insertBy le hto htr a _ ih

/-- Arguments without any digit-word leave the leaderboard limit
untouched. -/
theorem lbStep_foldl_fst_const (args : List String) (acc : Nat × Option String)
    (h : ∀ b ∈ args, isDigits b = false) :
    (args.foldl lbStep acc).1 = acc.1 := by
  induction args generalizing acc with
  | nil => rfl
  | cons a as ih =>
    simp only [List.foldl_cons]
    rw [ih _ (fun b hb => h b (List.mem_cons_of_mem a hb))]
    cases hacc : acc.2 <;> simp [lbStep, h a (List.mem_cons_self a as), hacc]

/-- The leaderboard limit always stays within the bounds it starts in. -/
theorem lbStep_foldl_fst_bounds (args : List String) (acc : Nat × Option String)
    (h1 : 1 ≤ acc.1) (h2 : acc.1 ≤ 25) :
    1 ≤ (args.foldl lbStep acc).1 ∧ (args.foldl lbStep acc).1 ≤ 25 := by
  induction args generalizing acc with
  | nil => exact ⟨h1, h2⟩
  | cons a as ih =>
    simp only [List.foldl_cons]
    have hb : 1 ≤ (lbStep acc a).1 ∧ (lbStep acc a).1 ≤ 25 := by
      by_cases h : isDigits a
      · simp only [lbStep, h, if_true, clampLimit]
        exact ⟨le_min (le_max_left 1 _) (by norm_num), min_le_right _ _⟩
      · cases hacc : acc.2 <;> simp only [lbStep, h, if_false, hacc] <;>
          exact ⟨h1, h2⟩
    exact ih _ hb.1 hb.2

/-- The last digit-word of the argument list decides the limit. -/
theorem parse_limit_of_last_digit (args1 args2 : List String) (a : String)
    (ha : isDigits a = true) (h2 : ∀ b ∈ args2, isDigits b = false) :
    (parse_leaderboard_args (args1 ++ a :: args2)).1 =
      clampLimit ((a.toNat?).getD 0) := by
  unfold parse_leaderboard_args
  rw [List.foldl_append, List.foldl_cons, lbStep_foldl_fst_const args2 _ h2]
  simp [lbStep, ha]

/-! ## Claim theorems -/

/-- C8: for every pair of ratings and a decisive outcome, the winner's
gain is `K × (1 − expected)` and equals the loser's loss magnitude
(deltas sum to zero); the draw update's two deltas likewise cancel. -/
theorem update_elo_zero_sum (w l : ℝ) :
    ((update_elo w l false).1 - w = K_FACTOR * (1 - get_expected_score w l) ∧
     ((update_elo w l false).1 - w) + ((update_elo w l false).2 - l) = 0) ∧
    ((update_elo w l true).1 - w) + ((update_elo w l true).2 - l) = 0 := by
  have h := expected_score_sum w l
  refine ⟨⟨?_, ?_⟩, ?_⟩
  · simp only [update_elo, Bool.false_eq_true, if_false]
    ring
  · simp only [update_elo, Bool.false_eq_true, if_false]
    ring
  · simp only [update_elo, K_FACTOR, if_true]
    linear_combination (-25 : ℝ) * h

/-- C1: `start_season` with an inactive current season and zero signed-up
players: `generate_pairings` fails (returns `false`, inserting nothing),
yet the season is still marked active because the source never checks the
returned value — the season does not remain Open. -/
theorem start_season_activates_despite_pairing_failure :
    (generate_pairings (fun l => l) freshState [⟨"Tier", 0, 3000⟩] 1).2 = false ∧
    (generate_pairings (fun l => l) freshState [⟨"Tier", 0, 3000⟩] 1).1.pairings = [] ∧
    (start_season (fun l => l) freshState [⟨"Tier", 0, 3000⟩]).2 = Outcome.seasonStarted ∧
    (start_season (fun l => l) freshState [⟨"Tier", 0, 3000⟩]).1.seasons = [⟨1, true⟩] ∧
    (start_season (fun l => l) freshState [⟨"Tier", 0, 3000⟩]).1.pairings = [] := by
  refine ⟨by decide, rfl, by decide, by decide, rfl⟩

/-- A store in which season 1 is active and one pairing row for players
10 and 20 was created by the pairing generator (in particular its legacy
`game_number` column is NULL), with both of its result slots already
filled. -/
noncomputable def settledPairingState : State :=
  ⟨[⟨10, 1380, 0, 0, 0, true⟩, ⟨20, 1380, 0, 0, 0, true⟩], [],
   [⟨1, true⟩], [⟨5, 10, 20, some (1 : ℝ), some (0 : ℝ), 1, "A", some 1⟩], 1, 6⟩

/-- C4: a season report against a pairing slot whose results are already
both recorded is not rejected as already-settled: the fetched
`existing_result1`/`existing_result2` are never examined, and the code
files a brand-new pending report for the filled slot (the pairing row
here carries `game_number = 1`, as in a database migrated from the legacy
schema; on a fresh schema the same command instead dies on the missing
`game_number` column). -/
theorem season_report_on_filled_slot_inserts_pending :
    (report_match settledPairingState 0 10 "w" 20 (some 1)).2 = Outcome.seasonReported ∧
    (report_match settledPairingState 0 10 "w" 20 (some 1)).1.pending_reps =
      [⟨1, some 5, 10, none, "w", some 1, 0⟩] := by
  exact ⟨by decide, by decide⟩


/-- A store with season 1 active and exactly the pairing row that
`generate_pairings` creates for players 10 and 20 (NULL results, NULL
legacy `game_number`). -/
noncomputable def generatedPairingState : State :=
  ⟨[⟨10, 1380, 0, 0, 0, true⟩, ⟨20, 1380, 0, 0, 0, true⟩], [],
   [⟨1, true⟩], [⟨5, 10, 20, none, none, 1, "A", none⟩], 1, 6⟩

/-- C2: in any store whose pairing rows were created by the pairing
generator (their legacy `game_number` column is NULL), every season-mode
report fails with "No valid season pairing found" and leaves the store
untouched.  In particular pairing settlement never fires and never
mutates a rating — not even when both result slots are filled — because
the pairing lookup (`... AND game_number = ?`) can never match. -/
theorem season_report_never_settles_generated_pairings
    (s : State) (now author : Nat) (res : String) (opponent g : Nat)
    (rd od : Player)
    (hg : ∀ p ∈ s.pairings, p.game_number = none)
    (hres : pyLower res = "w" ∨ pyLower res = "l" ∨ pyLower res = "d")
    (hne : author ≠ opponent)
    (hra : get_player_data s author = some rd)
    (hrb : get_player_data s opponent = some od)
    (hact : latest_season_active s = true)
    (hgn : g = 1 ∨ g = 2) :
    report_match s now author res opponent (some g) = (s, Outcome.noPairing) := by
  have hne' : (author == opponent) = false := by simp [hne]
  have hfind : s.pairings.find? (seasonPairingMatch s author opponent g) = none := by
    rw [List.find?_eq_none]
    intro p hp
    simp [seasonPairingMatch, hg p hp]
  rcases hgn with hg1 | hg1 <;> subst hg1 <;>
    rcases hres with h | h | h <;>
      simp [report_match, h, hne', hra, hrb, hact, hfind]

/-- C2 witness: a concrete season report against a generator-created
pairing row comes back `noPairing` without touching the store. -/
theorem season_report_never_settles_generated_pairings_witness :
    report_match generatedPairingState 0 10 "w" 20 (some 1) =
      (generatedPairingState, Outcome.noPairing) :=
  season_report_never_settles_generated_pairings generatedPairingState 0 10 "w" 20 1
    ⟨10, 1380, 0, 0, 0, true⟩ ⟨20, 1380, 0, 0, 0, true⟩
    (by decide) (Or.inl (by decide)) (by decide) rfl rfl (by decide) (Or.inl rfl)

/-- The store reached from a fresh database by registering players 1 and
2 and having player 1 run `$rep w @2` twice (at seconds 0 and 60, both
within the TTL). -/
noncomputable def doubleReportState : State :=
  (report_match
    (report_match ((register_player ((register_player freshState 1).1) 2).1)
      0 1 "w" 2 none).1
    60 1 "w" 2 none).1

/-- C3 counterexample: the reachable store `doubleReportState` holds two
live pending reports for the (reporter 1, opponent 2, no-slot) tuple —
re-reporting the same opponent in freeform mode created a second one. -/
theorem freeform_rereport_creates_second_live_pending :
    (doubleReportState.pending_reps.filter (matchesFree 1 2 (60 - 1800))).length = 2 ∧
    ¬ ((doubleReportState.pending_reps.filter (matchesFree 1 2 (60 - 1800))).length ≤ 1) := by
  exact ⟨by decide, by decide⟩

/-- C3 amended: a freeform report only looks for a live report from the
opponent; when none exists it inserts a fresh pending report even if the
reporter already has a live one against the same opponent, so a second
live PendingReport for the same (reporter, opponent, no-slot) tuple
comes to exist. -/
theorem freeform_report_ignores_reporters_own_pending
    (s : State) (now author : Nat) (res : String) (opponent : Nat)
    (rd od : Player) (x : PendingRep)
    (hres : pyLower res = "w" ∨ pyLower res = "l" ∨ pyLower res = "d")
    (hne : author ≠ opponent)
    (hra : get_player_data s author = some rd)
    (hrb : get_player_data s opponent = some od)
    (hnone : get_pending_rep s now opponent author = none)
    (hx : x ∈ s.pending_reps)
    (hxm : matchesFree author opponent (now - 1800) x = true) :
    report_match s now author res opponent none =
      (add_pending_rep s now author opponent (pyLower res), Outcome.freeformReported) ∧
    2 ≤ ((report_match s now author res opponent none).1.pending_reps.filter
          (matchesFree author opponent (now - 1800))).length := by
  have hne' : (author == opponent) = false := by simp [hne]
  have hmain : report_match s now author res opponent none =
      (add_pending_rep s now author opponent (pyLower res), Outcome.freeformReported) := by
    rcases hres with h | h | h <;> simp [report_match, h, hne', hra, hrb, hnone]
  refine ⟨hmain, ?_⟩
  rw [hmain]
  simp only [add_pending_rep, List.filter_append, List.length_append]
  have h1 : 0 < (s.pending_reps.filter (matchesFree author opponent (now - 1800))).length :=
    List.length_pos.mpr (List.ne_nil_of_mem (List.mem_filter.mpr ⟨hx, hxm⟩))
  have h2 : (List.filter (matchesFree author opponent (now - 1800))
      [⟨s.next_rep_id, none, author, some opponent, pyLower res, none, now⟩]).length = 1 := by
    simp [List.filter, matchesFree, Nat.sub_le]
  omega

/-- C3 amended witness: with a live report from player 1 against player 2
already present, a repeated `$rep w @2` leaves two live reports. -/
theorem freeform_report_ignores_reporters_own_pending_witness :
    report_match
        ⟨[⟨1, 1380, 0, 0, 0, false⟩, ⟨2, 1380, 0, 0, 0, false⟩],
         [⟨1, none, 1, some 2, "w", none, 0⟩], [⟨1, false⟩], [], 2, 1⟩
        60 1 "w" 2 none =
      (add_pending_rep
        ⟨[⟨1, 1380, 0, 0, 0, false⟩, ⟨2, 1380, 0, 0, 0, false⟩],
         [⟨1, none, 1, some 2, "w", none, 0⟩], [⟨1, false⟩], [], 2, 1⟩
        60 1 2 (pyLower "w"), Outcome.freeformReported) ∧
    2 ≤ ((report_match
        ⟨[⟨1, 1380, 0, 0, 0, false⟩, ⟨2, 1380, 0, 0, 0, false⟩],
         [⟨1, none, 1, some 2, "w", none, 0⟩], [⟨1, false⟩], [], 2, 1⟩
        60 1 "w" 2 none).1.pending_reps.filter (matchesFree 1 2 (60 - 1800))).length :=
  freeform_report_ignores_reporters_own_pending
    ⟨[⟨1, 1380, 0, 0, 0, false⟩, ⟨2, 1380, 0, 0, 0, false⟩],
     [⟨1, none, 1, some 2, "w", none, 0⟩], [⟨1, false⟩], [], 2, 1⟩
    60 1 "w" 2 ⟨1, 1380, 0, 0, 0, false⟩ ⟨2, 1380, 0, 0, 0, false⟩
    ⟨1, none, 1, some 2, "w", none, 0⟩
    (Or.inl (by decide)) (by decide) rfl rfl (by decide)
    (by decide) (by decide)

/-- The store reached from a fresh database by registering players 1 and
2, letting player 2 report `$rep w @1`, and player 1 confirm with
`$rep l @2`: the match is settled, ratings were applied once, and the
pending report was deleted. -/
noncomputable def replayState : State :=
  (report_match
    (report_match ((register_player ((register_player freshState 1).1) 2).1)
      0 2 "w" 1 none).1
    10 1 "l" 2 none).1

/-- C6 counterexample: repeating the confirming report `$rep l @2` after
the confirmation settled (and deleted) the pending report does NOT fail:
it files a brand-new pending report from player 1 (outcome
`freeformReported`), which the opponent could even confirm again. -/
theorem freeform_confirm_replay_files_new_report :
    (report_match replayState 20 1 "l" 2 none).2 = Outcome.freeformReported ∧
    (report_match replayState 20 1 "l" 2 none).1.pending_reps =
      [⟨2, none, 1, some 2, "l", none, 20⟩] := by
  exact ⟨by decide, by decide⟩

/-- C6 amended: after a confirmation has been applied and the
PendingReport deleted, repeating the same confirming report finds no
PendingReport and applies no rating mutation — but instead of failing it
registers a fresh pending report from the repeater. -/
theorem freeform_confirm_replay_no_double_update
    (s : State) (now author : Nat) (res : String) (opponent : Nat)
    (rd od : Player)
    (hres : pyLower res = "w" ∨ pyLower res = "l" ∨ pyLower res = "d")
    (hne : author ≠ opponent)
    (hra : get_player_data s author = some rd)
    (hrb : get_player_data s opponent = some od)
    (hnone : get_pending_rep s now opponent author = none) :
    report_match s now author res opponent none =
      (add_pending_rep s now author opponent (pyLower res), Outcome.freeformReported) ∧
    (report_match s now author res opponent none).1.players = s.players := by
  have hne' : (author == opponent) = false := by simp [hne]
  have hmain : report_match s now author res opponent none =
      (add_pending_rep s now author opponent (pyLower res), Outcome.freeformReported) := by
    rcases hres with h | h | h <;> simp [report_match, h, hne', hra, hrb, hnone]
  refine ⟨hmain, ?_⟩
  rw [hmain]
  simp [add_pending_rep]

/-- C6 amended witness: in a store with the match already settled and no
pending reports, the repeated confirming report comes back as a fresh
report and the players table is untouched. -/
theorem freeform_confirm_replay_no_double_update_witness :
    report_match
        ⟨[⟨1, 1380, 1, 0, 0, false⟩, ⟨2, 1380, 0, 1, 0, false⟩], [],
         [⟨1, false⟩], [], 2, 1⟩ 20 1 "l" 2 none =
      (add_pending_rep
        ⟨[⟨1, 1380, 1, 0, 0, false⟩, ⟨2, 1380, 0, 1, 0, false⟩], [],
         [⟨1, false⟩], [], 2, 1⟩ 20 1 2 (pyLower "l"), Outcome.freeformReported) ∧
    (report_match
        ⟨[⟨1, 1380, 1, 0, 0, false⟩, ⟨2, 1380, 0, 1, 0, false⟩], [],
         [⟨1, false⟩], [], 2, 1⟩ 20 1 "l" 2 none).1.players =
      (⟨[⟨1, 1380, 1, 0, 0, false⟩, ⟨2, 1380, 0, 1, 0, false⟩], [],
        [⟨1, false⟩], [], 2, 1⟩ : State).players :=
  freeform_confirm_replay_no_double_update
    ⟨[⟨1, 1380, 1, 0, 0, false⟩, ⟨2, 1380, 0, 1, 0, false⟩], [],
     [⟨1, false⟩], [], 2, 1⟩ 20 1 "l" 2
    ⟨1, 1380, 1, 0, 0, false⟩ ⟨2, 1380, 0, 1, 0, false⟩
    (Or.inr (Or.inl (by decide))) (by decide) rfl rfl (by decide)

/-- C5: splitting a tier group of 9 players produces the subgroup sizes
[4, 4, 1]: the trailing subgroup has a single player, below the minimum
subgroup size of 4 that the source's own comment ("split into subgroups
of 4-7 players") promises. -/
theorem subgroups_of_nine_has_undersized_group :
    (subgroupsSplit (fun l => l) [1, 2, 3, 4, 5, 6, 7, 8, 9]).map List.length
      = [4, 4, 1] ∧
    ¬ (∀ g ∈ subgroupsSplit (fun l => l) [1, 2, 3, 4, 5, 6, 7, 8, 9],
        4 ≤ g.length ∧ g.length ≤ 7) := by
  exact ⟨by decide, by decide⟩

/-- A store whose only pending report is a season-slot report filed at
second 0 — far beyond the 30-minute TTL for any read after second
1800. -/
def staleSeasonRepState : State :=
  ⟨[], [⟨7, some 5, 10, none, "w", some 1, 0⟩], [⟨1, true⟩], [], 8, 1⟩

/-- C7 counterexample: the season-mode pending-report lookup applies no
TTL condition, so a report long past the 30-minute TTL (timestamp 0,
read at e.g. second 10000) is NOT treated as absent — the read returns
it. -/
theorem season_pending_lookup_ignores_ttl :
    ¬ (∀ now : Nat,
        (∀ x ∈ staleSeasonRepState.pending_reps, x.timestamp + 1800 < now) →
        get_season_pending_rep staleSeasonRepState 5 1 = none) := by
  intro hclaim
  have h := hclaim 10000 (by decide)
  have hval : get_season_pending_rep staleSeasonRepState 5 1 =
      some ⟨7, some 5, 10, none, "w", some 1, 0⟩ := by decide
  rw [hval] at h
  exact Option.noConfusion h

/-- C7 amended: the freeform reads (the confirmation lookup and the
cancel lookup both go through `get_pending_rep`) treat a report past the
30-minute TTL as absent — any returned report satisfies
`now - 1800 ≤ timestamp` — but the season-mode pending lookup applies no
TTL filter: it returns a hit whenever any matching row is stored, no
matter how old. -/
theorem freeform_reads_respect_ttl_season_read_does_not
    (s : State) (now r o : Nat) (rep : PendingRep)
    (h : get_pending_rep s now r o = some rep)
    (s2 : State) (pid g : Nat) (x : PendingRep)
    (hx : x ∈ s2.pending_reps) (h1 : x.pairing_id = some pid)
    (h2 : x.game_number = some g) :
    now - 1800 ≤ rep.timestamp ∧
    (get_season_pending_rep s2 pid g).isSome = true := by
  constructor
  · exact (matchesFree_spec (get_pending_rep_spec s now r o rep h).2.1).2.2
  · exact find?_isSome_of_mem hx (by simp [h1, h2])

/-- C7 amended witness: a live freeform report is returned and indeed
satisfies the TTL bound, while the stale season-slot report of
`staleSeasonRepState` is still returned by the season read. -/
theorem freeform_reads_respect_ttl_season_read_does_not_witness :
    (5400 : Nat) - 1800 ≤
      (⟨3, none, 1, some 2, "w", none, 5000⟩ : PendingRep).timestamp ∧
    (get_season_pending_rep staleSeasonRepState 5 1).isSome = true :=
  freeform_reads_respect_ttl_season_read_does_not
    ⟨[], [⟨3, none, 1, some 2, "w", none, 5000⟩], [⟨1, false⟩], [], 4, 1⟩
    5400 1 2 ⟨3, none, 1, some 2, "w", none, 5000⟩ (by decide)
    staleSeasonRepState 5 1 ⟨7, some 5, 10, none, "w", some 1, 0⟩
    (by decide) rfl rfl

/-- C9: a successful pending lookup (used by both the freeform
confirmation, with reporter := opponent, and by cancellation, with
reporter := author) returns a live matching report of maximal timestamp
— the most recently created one when creation times are distinct — and
cancelling with the matching claimed result deletes exactly that single
report and nothing else. -/
theorem pending_lookup_latest_and_cancel_deletes_exactly_one
    (s : State) (now author opponent : Nat) (rep : PendingRep) (res : String)
    (h : get_pending_rep s now author opponent = some rep)
    (hres : pyLower res = "w" ∨ pyLower res = "l" ∨ pyLower res = "d")
    (hmatch : pyLower rep.result = pyLower res)
    (hne : author ≠ opponent)
    (hnd : (s.pending_reps.map (fun x => x.id)).Nodup) :
    (rep ∈ s.pending_reps ∧ matchesFree author opponent (now - 1800) rep = true ∧
     ∀ x ∈ s.pending_reps, matchesFree author opponent (now - 1800) x = true →
       x.timestamp ≤ rep.timestamp) ∧
    cancel_pending_match s now author res opponent =
      (delete_pending_rep s rep.id, Outcome.cancelled) ∧
    rep ∉ (delete_pending_rep s rep.id).pending_reps ∧
    ∀ x ∈ s.pending_reps, x ≠ rep →
      x ∈ (delete_pending_rep s rep.id).pending_reps := by
  have hspec := get_pending_rep_spec s now author opponent rep h
  have hne' : (author == opponent) = false := by simp [hne]
  have hcancel : cancel_pending_match s now author res opponent =
      (delete_pending_rep s rep.id, Outcome.cancelled) := by
    rcases hres with hr | hr | hr <;>
      simp [cancel_pending_match, hr, hne', h, hmatch]
  refine ⟨hspec, hcancel, ?_, ?_⟩
  · simp [delete_pending_rep, List.mem_filter]
  · intro x hx hxne
    have hid : x.id ≠ rep.id := by
      intro hid
      exact hxne (pending_id_inj hnd x hx rep hspec.1 hid)
    simp [delete_pending_rep, List.mem_filter, hx, hid]

/-- C9 witness: with two live reports from player 3 against player 4,
the lookup picks the one with the larger timestamp (id 2, second 200)
and cancelling deletes exactly it. -/
theorem pending_lookup_latest_and_cancel_deletes_exactly_one_witness :
    ((⟨2, none, 3, some 4, "w", none, 200⟩ : PendingRep) ∈
       (⟨[], [⟨1, none, 3, some 4, "w", none, 100⟩,
              ⟨2, none, 3, some 4, "w", none, 200⟩], [⟨1, false⟩], [], 3, 1⟩ :
         State).pending_reps ∧
     matchesFree 3 4 (300 - 1800) ⟨2, none, 3, some 4, "w", none, 200⟩ = true ∧
     ∀ x ∈ (⟨[], [⟨1, none, 3, some 4, "w", none, 100⟩,
                  ⟨2, none, 3, some 4, "w", none, 200⟩], [⟨1, false⟩], [], 3, 1⟩ :
              State).pending_reps,
       matchesFree 3 4 (300 - 1800) x = true →
       x.timestamp ≤ (⟨2, none, 3, some 4, "w", none, 200⟩ : PendingRep).timestamp) ∧
    cancel_pending_match
        ⟨[], [⟨1, none, 3, some 4, "w", none, 100⟩,
              ⟨2, none, 3, some 4, "w", none, 200⟩], [⟨1, false⟩], [], 3, 1⟩
        300 3 "w" 4 =
      (delete_pending_rep
        ⟨[], [⟨1, none, 3, some 4, "w", none, 100⟩,
              ⟨2, none, 3, some 4, "w", none, 200⟩], [⟨1, false⟩], [], 3, 1⟩ 2,
       Outcome.cancelled) ∧
    (⟨2, none, 3, some 4, "w", none, 200⟩ : PendingRep) ∉
      (delete_pending_rep
        ⟨[], [⟨1, none, 3, some 4, "w", none, 100⟩,
              ⟨2, none, 3, some 4, "w", none, 200⟩], [⟨1, false⟩], [], 3, 1⟩
        2).pending_reps ∧
    ∀ x ∈ (⟨[], [⟨1, none, 3, some 4, "w", none, 100⟩,
                 ⟨2, none, 3, some 4, "w", none, 200⟩], [⟨1, false⟩], [], 3, 1⟩ :
             State).pending_reps,
      x ≠ ⟨2, none, 3, some 4, "w", none, 200⟩ →
      x ∈ (delete_pending_rep
        ⟨[], [⟨1, none, 3, some 4, "w", none, 100⟩,
              ⟨2, none, 3, some 4, "w", none, 200⟩], [⟨1, false⟩], [], 3, 1⟩
        2).pending_reps :=
  pending_lookup_latest_and_cancel_deletes_exactly_one
    ⟨[], [⟨1, none, 3, some 4, "w", none, 100⟩,
          ⟨2, none, 3, some 4, "w", none, 200⟩], [⟨1, false⟩], [], 3, 1⟩
    300 3 4 ⟨2, none, 3, some 4, "w", none, 200⟩ "w"
    (by decide) (Or.inl (by decide)) (by decide) (by decide) (by decide)

/-- C10: the leaderboard limit is always within 1..25; it is 10 when no
numeric argument was supplied and `min(max(1, n), 25)` of the last
numeric argument otherwise; and the returned top players are ordered by
descending rating, at most `limit` of them. -/
theorem leaderboard_limit_clamped_and_sorted
    (args : List String) (players : List Player)
    (member_ids : Option (List Nat)) :
    (1 ≤ (parse_leaderboard_args args).1 ∧ (parse_leaderboard_args args).1 ≤ 25) ∧
    ((∀ b ∈ args, isDigits b = false) → (parse_leaderboard_args args).1 = 10) ∧
    (∀ args1 args2 a, args = args1 ++ a :: args2 → isDigits a = true →
      (∀ b ∈ args2, isDigits b = false) →
      (parse_leaderboard_args args).1 = clampLimit ((a.toNat?).getD 0)) ∧
    (topPlayersQuery players member_ids (parse_leaderboard_args args).1).Pairwise
      (fun p q => q.elo ≤ p.elo) ∧
    (topPlayersQuery players member_ids (parse_leaderboard_args args).1).length ≤
      (parse_leaderboard_args args).1 := by
  refine ⟨?_, ?_, ?_, ?_, ?_⟩
  · exact lbStep_foldl_fst_bounds args (10, none) (by norm_num) (by norm_num)
  · intro hnone
    exact lbStep_foldl_fst_const args (10, none) hnone
  · intro args1 args2 a ha hda h2
    rw [ha]
    exact parse_limit_of_last_digit args1 args2 a hda h2
  · have hp := pairwise_sortBy eloDesc
      (fun x y => by
        simp only [eloDesc, decide_eq_true_eq]
        exact le_total y.elo x.elo)
      (fun x y z hxy hyz => by
        simp only [eloDesc, decide_eq_true_eq] at hxy hyz ⊢
        exact le_trans hyz hxy)
      (match member_ids with
       | none => players
       | some ids => players.filter (fun p => ids.contains p.id))
    have hsub := List.Pairwise.sublist
      (List.take_sublist (parse_leaderboard_args args).1 _) hp
    exact hsub.imp (fun hd => of_decide_eq_true hd)
  · exact List.length_take_le _ _

/-- C10 witness: with arguments ["30", "gold"] the limit clamps to 25;
the query returns a descending two-player board. -/
theorem leaderboard_limit_clamped_and_sorted_witness :
    (1 ≤ (parse_leaderboard_args ["30", "gold"]).1 ∧
      (parse_leaderboard_args ["30", "gold"]).1 ≤ 25) ∧
    ((∀ b ∈ ["30", "gold"], isDigits b = false) →
      (parse_leaderboard_args ["30", "gold"]).1 = 10) ∧
    (∀ args1 args2 a, ["30", "gold"] = args1 ++ a :: args2 →
      isDigits a = true → (∀ b ∈ args2, isDigits b = false) →
      (parse_leaderboard_args ["30", "gold"]).1 = clampLimit ((a.toNat?).getD 0)) ∧
    (topPlayersQuery [⟨1, 1300, 0, 0, 0, false⟩, ⟨2, 1400, 0, 0, 0, false⟩]
      none (parse_leaderboard_args ["30", "gold"]).1).Pairwise
      (fun p q => q.elo ≤ p.elo) ∧
    (topPlayersQuery [⟨1, 1300, 0, 0, 0, false⟩, ⟨2, 1400, 0, 0, 0, false⟩]
      none (parse_leaderboard_args ["30", "gold"]).1).length ≤
      (parse_leaderboard_args ["30", "gold"]).1 :=
  leaderboard_limit_clamped_and_sorted ["30", "gold"]
    [⟨1, 1300, 0, 0, 0, false⟩, ⟨2, 1400, 0, 0, 0, false⟩] none

end EloBot
